import Mathlib

/-!
Shallow embedding of the traffic-signal simulation in `src/main.py` and proofs
about its controller and vehicle components.

The embedding keeps the source's names and control flow.  Python floats are
modelled as rationals (`ℚ`), the four-key `signals` dict as a four-field
structure, the `deque` emergency queue as a list, and the mutable objects
(`TrafficController`, `VehicleManager`, `Vehicle`) as explicit state passing.
GUI, canvas, audio and logging calls are external collaborators (spec §1) and
have no effect on the modelled state; they are dropped.
-/

namespace TrafficSim

/-- Configuration constant `CANVAS_W` from the source. -/
def CANVAS_W : ℚ := 1000

/-- Configuration constant `CANVAS_H` from the source. -/
def CANVAS_H : ℚ := 700

/-- Configuration constant `GREEN_TIME` (seconds of a green phase). -/
def GREEN_TIME : ℚ := 8

/-- Configuration constant `YELLOW_TIME` (seconds of a yellow phase). -/
def YELLOW_TIME : ℚ := 2

/-- Configuration constant `EMERGENCY_TIME` (seconds of an override hold). -/
def EMERGENCY_TIME : ℚ := 8

/-- Configuration constant `CHECK_INTERVAL` (controller tick period, ms). -/
def CHECK_INTERVAL : ℚ := 200

/-- The amount subtracted from a controller timer each `_tick`:
`CHECK_INTERVAL / 1000.0` in the source. -/
def TICK_DT : ℚ := CHECK_INTERVAL / 1000

/-- Configuration constant `STOP_DIST` (stop-zone radius around the center). -/
def STOP_DIST : ℚ := 70

/-- Configuration constant `VEHICLE_SPAWN_DIST`. -/
def VEHICLE_SPAWN_DIST : ℚ := 150

/-- Configuration constant `VEHICLE_DESPAWN_DIST`. -/
def VEHICLE_DESPAWN_DIST : ℚ := 300

/-- Configuration constant `MIN_SPACING` (minimum spawn spacing). -/
def MIN_SPACING : ℚ := 40

/-- Configuration constant `CAR_BASE_SPEED`. -/
def CAR_BASE_SPEED : ℚ := 5 / 2

/-- Configuration constant `AMB_BASE_SPEED`. -/
def AMB_BASE_SPEED : ℚ := 4

/-- Configuration constant `FIRE_BASE_SPEED`. -/
def FIRE_BASE_SPEED : ℚ := 7 / 2

/-- A signal color, one of the three string values `"red"`, `"yellow"`,
`"green"` stored in `TrafficController.signals`. -/
inductive Color
  | red
  | yellow
  | green
  deriving DecidableEq

/-- The `TrafficController.signals` dict: it always holds exactly the four
keys `"north"`, `"south"`, `"east"`, `"west"`. -/
structure Signals where
  north : Color
  south : Color
  east : Color
  west : Color
  deriving DecidableEq

/-- The all-red signal map built in `TrafficController.__init__`. -/
def allRedSignals : Signals :=
  ⟨Color.red, Color.red, Color.red, Color.red⟩

/-- The signal map written by `set_ns_green` and by `serve_emergency` for a
north/south direction. -/
def nsGreenSignals : Signals :=
  ⟨Color.green, Color.green, Color.red, Color.red⟩

/-- The signal map written by `set_ns_yellow`. -/
def nsYellowSignals : Signals :=
  ⟨Color.yellow, Color.yellow, Color.red, Color.red⟩

/-- The signal map written by `set_ew_green` and by `serve_emergency` for any
direction other than north/south. -/
def ewGreenSignals : Signals :=
  ⟨Color.red, Color.red, Color.green, Color.green⟩

/-- The signal map written by `set_ew_yellow`. -/
def ewYellowSignals : Signals :=
  ⟨Color.red, Color.red, Color.yellow, Color.yellow⟩

/-- The dict appended by `TrafficController.add_emergency`: direction string,
vehicle-type string, and the `time.time()` arrival timestamp.  Direction and
type are kept as raw strings because `add_emergency` accepts arbitrary
strings. -/
structure EmergencyRequest where
  direction : String
  vtype : String
  time : ℚ
  deriving DecidableEq

/-- The mutable state of `TrafficController`. -/
structure ControllerState where
  signals : Signals
  emergency_queue : List EmergencyRequest
  cycle_state : String
  state_timer : ℚ
  override_active : Bool
  override_direction : Option String
  override_timer : ℚ
  running : Bool
  deriving DecidableEq

/-- `TrafficController.__init__`: all signals red, empty queue, `ns_green`
cycle state with a full green timer, no override, not running. -/
def initC : ControllerState :=
  { signals := allRedSignals
    emergency_queue := []
    cycle_state := "ns_green"
    state_timer := GREEN_TIME
    override_active := false
    override_direction := none
    override_timer := 0
    running := false }

/-- `TrafficController.set_ns_green` (the `ui.*` calls are external). -/
def set_ns_green (s : ControllerState) : ControllerState :=
  { s with cycle_state := "ns_green", state_timer := GREEN_TIME,
           signals := nsGreenSignals }

/-- `TrafficController.set_ns_yellow`. -/
def set_ns_yellow (s : ControllerState) : ControllerState :=
  { s with cycle_state := "ns_yellow", state_timer := YELLOW_TIME,
           signals := nsYellowSignals }

/-- `TrafficController.set_ew_green`. -/
def set_ew_green (s : ControllerState) : ControllerState :=
  { s with cycle_state := "ew_green", state_timer := GREEN_TIME,
           signals := ewGreenSignals }

/-- `TrafficController.set_ew_yellow`. -/
def set_ew_yellow (s : ControllerState) : ControllerState :=
  { s with cycle_state := "ew_yellow", state_timer := YELLOW_TIME,
           signals := ewYellowSignals }

/-- `TrafficController.start`: if not already running, set `running`, enter
`ns_green` and kick off the tick loop (ticking itself is modelled by the
separate `tickC` operation). -/
def startC (s : ControllerState) : ControllerState :=
  if s.running then s else set_ns_green { s with running := true }

/-- `TrafficController.stop`. -/
def stopC (s : ControllerState) : ControllerState :=
  { s with running := false }

/-- `TrafficController.add_emergency(direction, vehicle_type)`: builds the
request dict with the current timestamp and appends it to the queue.  The
source performs no validation of either string. -/
def add_emergency (direction : String) (vehicle_type : String) (now : ℚ)
    (s : ControllerState) : ControllerState :=
  { s with emergency_queue :=
      s.emergency_queue ++ [⟨direction, vehicle_type, now⟩] }

/-- The priority rank used in `get_next_emergency`'s sort key:
`0 if x["type"] == "ambulance" else 1`. -/
def emergency_rank (t : String) : ℕ :=
  if t = "ambulance" then 0 else 1

/-- The lexicographic comparison on `(priority rank, arrival time)` keys that
`sorted(..., key=lambda x: (0 if x["type"] == "ambulance" else 1, x["time"]))`
sorts by. -/
def keyLE (a b : EmergencyRequest) : Bool :=
  decide (emergency_rank a.vtype < emergency_rank b.vtype) ||
    (decide (emergency_rank a.vtype = emergency_rank b.vtype) &&
      decide (a.time ≤ b.time))

/-- Insert a request into a key-sorted list, before the first element whose
key is not smaller (so an earlier-queued request stays in front of
later-queued requests with an equal key). -/
def insertReq (x : EmergencyRequest) :
    List EmergencyRequest → List EmergencyRequest
  | [] => [x]
  | y :: ys => if keyLE x y then x :: y :: ys else y :: insertReq x ys

/-- Stable sort of the emergency queue by `keyLE`; the embedding of Python's
stable `sorted` (only the head of the result is ever used). -/
def sortReqs : List EmergencyRequest → List EmergencyRequest
  | [] => []
  | x :: xs => insertReq x (sortReqs xs)

/-- `TrafficController.get_next_emergency`: `None` on an empty queue,
otherwise the head of the queue stably sorted by
`(priority rank, arrival time)`. -/
def get_next_emergency (q : List EmergencyRequest) : Option EmergencyRequest :=
  match sortReqs q with
  | [] => none
  | e :: _ => some e

/-- Modelled from the spec's selection-policy words: among queued requests,
pick the one with the lowest `(priority-rank, arrival-timestamp)`
lexicographic key, the earliest-queued one on a full-key tie. -/
def specNextEmergency : List EmergencyRequest → Option EmergencyRequest
  | [] => none
  | x :: xs =>
    match specNextEmergency xs with
    | none => some x
    | some m => some (if keyLE x m then x else m)

/-- Remove the first occurrence of a request from the queue
(`deque.remove`, which compares dicts structurally). -/
def removeFirst (e : EmergencyRequest) :
    List EmergencyRequest → List EmergencyRequest
  | [] => []
  | x :: xs => if x = e then xs else x :: removeFirst e xs

/-- `TrafficController.serve_emergency(emergency)`: drop the request from the
queue if present, activate the override for its direction with a fresh hold
timer, and force the matching axis green. -/
def serve_emergency (e : EmergencyRequest) (s : ControllerState) :
    ControllerState :=
  let q := if e ∈ s.emergency_queue then removeFirst e s.emergency_queue
           else s.emergency_queue
  { s with emergency_queue := q
           override_active := true
           override_direction := some e.direction
           override_timer := EMERGENCY_TIME
           signals := if e.direction = "north" ∨ e.direction = "south"
                      then nsGreenSignals else ewGreenSignals }

/-- `TrafficController.end_override`: clear the override fields, then run the
direction filter guarded by `if self.override_direction:` — which reads the
field that was just set to `None`, so the filter branch never executes — and
return to the normal cycle via `set_ns_green`. -/
def end_override (s : ControllerState) : ControllerState :=
  let s1 := { s with override_active := false, override_direction := none,
                     override_timer := 0 }
  let s2 :=
    match s1.override_direction with
    | some d =>
      { s1 with emergency_queue :=
          s1.emergency_queue.filter fun e => decide (e.direction ≠ d) }
    | none => s1
  set_ns_green s2

/-- The override arm of `TrafficController._tick`, entered after the hold
timer has been decremented: end the override once the timer is `≤ 0`. -/
def tickOverride (s1 : ControllerState) : ControllerState :=
  if s1.override_timer ≤ 0 then end_override s1 else s1

/-- The normal-cycle arm of `TrafficController._tick`, entered after the
phase timer has been decremented: when the timer lapses, step
`ns_green → ns_yellow → ew_green → ew_yellow → ns_green`. -/
def tickCycle (s1 : ControllerState) : ControllerState :=
  if s1.state_timer ≤ 0 then
    if s1.cycle_state = "ns_green" then set_ns_yellow s1
    else if s1.cycle_state = "ns_yellow" then set_ew_green s1
    else if s1.cycle_state = "ew_green" then set_ew_yellow s1
    else if s1.cycle_state = "ew_yellow" then set_ns_green s1
    else s1
  else s1

/-- `TrafficController._tick` (scheduling of the next tick is external):
no-op when not running; while the override is active decrement the hold timer
and end the override when it lapses; otherwise serve a queued emergency if one
exists, else run the normal-cycle timer and phase transitions. -/
def tickC (s : ControllerState) : ControllerState :=
  if s.running = false then s
  else if s.override_active then
    tickOverride { s with override_timer := s.override_timer - TICK_DT }
  else
    match get_next_emergency s.emergency_queue with
    | some e => serve_emergency e s
    | none => tickCycle { s with state_timer := s.state_timer - TICK_DT }

/-- The controller part of `TrafficUI.reset_simulation`: stop, clear the
emergency queue, drop the override, and reinitialise to `ns_green`. -/
def resetC (s : ControllerState) : ControllerState :=
  set_ns_green
    { s with running := false, emergency_queue := [],
             override_active := false, override_direction := none }

/-- Controller states reachable from the initial all-red state by the public
operations: start, tick, enqueue, serve-emergency, end-override, reset. -/
inductive Reachable : ControllerState → Prop
  | init : Reachable initC
  | start (s : ControllerState) : Reachable s → Reachable (startC s)
  | tick (s : ControllerState) : Reachable s → Reachable (tickC s)
  | enqueue (d t : String) (now : ℚ) (s : ControllerState) :
      Reachable s → Reachable (add_emergency d t now s)
  | serve (e : EmergencyRequest) (s : ControllerState) :
      Reachable s → Reachable (serve_emergency e s)
  | endOv (s : ControllerState) : Reachable s → Reachable (end_override s)
  | reset (s : ControllerState) : Reachable s → Reachable (resetC s)

/-- The set of green directions of a signal map is `∅`, `{north, south}`,
or `{east, west}`. -/
def greensOK (sig : Signals) : Prop :=
  (sig.north = Color.green ∧ sig.south = Color.green ∧
    sig.east ≠ Color.green ∧ sig.west ≠ Color.green) ∨
  (sig.east = Color.green ∧ sig.west = Color.green ∧
    sig.north ≠ Color.green ∧ sig.south ≠ Color.green) ∨
  (sig.north ≠ Color.green ∧ sig.south ≠ Color.green ∧
    sig.east ≠ Color.green ∧ sig.west ≠ Color.green)

instance (sig : Signals) : Decidable (greensOK sig) := by
  unfold greensOK
  infer_instance

/-- A travel direction: the four keys of `VehicleManager.spawn_points`,
`velocities` and `despawn_bounds`.  Every `Vehicle` is constructed with one
of these four keys. -/
inductive Direction
  | north
  | south
  | east
  | west
  deriving DecidableEq

/-- The state of a `Vehicle` object (canvas, sound and siren-blink fields are
external collaborators and carry no modelled behaviour).  `vehicle_type` is a
raw string, as in the source. -/
structure Vehicle where
  id : ℕ
  direction : Direction
  vehicle_type : String
  x : ℚ
  y : ℚ
  vx : ℚ
  vy : ℚ
  speed : ℚ
  stopped : Bool
  has_passed_intersection : Bool
  deriving DecidableEq

/-- `VehicleManager.spawn_points`. -/
def spawn_points (d : Direction) : ℚ × ℚ :=
  match d with
  | Direction.north => (CANVAS_W / 2 - 60, -VEHICLE_SPAWN_DIST)
  | Direction.south => (CANVAS_W / 2 + 60, CANVAS_H + VEHICLE_SPAWN_DIST)
  | Direction.west => (-VEHICLE_SPAWN_DIST, CANVAS_H / 2 - 40)
  | Direction.east => (CANVAS_W + VEHICLE_SPAWN_DIST, CANVAS_H / 2 + 40)

/-- `VehicleManager.velocities`: the fixed unit velocity vector of each
direction. -/
def velocities (d : Direction) : ℚ × ℚ :=
  match d with
  | Direction.north => (0, 1)
  | Direction.south => (0, -1)
  | Direction.west => (1, 0)
  | Direction.east => (-1, 0)

/-- `VehicleManager.despawn_bounds`: each direction's single-coordinate
boundary predicate. -/
def despawn_bound (d : Direction) (c : ℚ) : Bool :=
  match d with
  | Direction.north => decide (c > CANVAS_H + VEHICLE_DESPAWN_DIST)
  | Direction.south => decide (c < -VEHICLE_DESPAWN_DIST)
  | Direction.west => decide (c > CANVAS_W + VEHICLE_DESPAWN_DIST)
  | Direction.east => decide (c < -VEHICLE_DESPAWN_DIST)

/-- `Vehicle._get_base_speed`: dictionary lookup with `CAR_BASE_SPEED` as the
default for unknown types. -/
def base_speed_of (t : String) : ℚ :=
  if t = "car" then CAR_BASE_SPEED
  else if t = "ambulance" then AMB_BASE_SPEED
  else if t = "firetruck" then FIRE_BASE_SPEED
  else CAR_BASE_SPEED

/-- `Vehicle.__init__` restricted to the modelled fields: position at the
given spawn point, the given velocity vector, class base speed, not stopped,
not yet past the intersection. -/
def mkVehicle (newId : ℕ) (direction : Direction) (vehicle_type : String)
    (velocity : ℚ × ℚ) (spawn_point : ℚ × ℚ) : Vehicle :=
  { id := newId
    direction := direction
    vehicle_type := vehicle_type
    x := spawn_point.1
    y := spawn_point.2
    vx := velocity.1
    vy := velocity.2
    speed := base_speed_of vehicle_type
    stopped := false
    has_passed_intersection := false }

/-- `Vehicle.move(speed_multiplier)`: advance the position by the velocity
scaled by speed and multiplier (canvas moves are external). -/
def Vehicle.move (v : Vehicle) (speed_multiplier : ℚ) : Vehicle :=
  let move_x := v.vx * v.speed * speed_multiplier
  let move_y := v.vy * v.speed * speed_multiplier
  { v with x := v.x + move_x, y := v.y + move_y }

/-- The signal color a vehicle of direction `d` reads from the signal map
(`signals["north"]` etc. in `check_stop_signal`). -/
def signalFor (sig : Signals) (d : Direction) : Color :=
  match d with
  | Direction.north => sig.north
  | Direction.south => sig.south
  | Direction.east => sig.east
  | Direction.west => sig.west

/-- `Vehicle.check_stop_signal(signals)`: per-direction signed distance to
the intersection center; strictly inside the stop zone the stopped flag
mirrors "signal is not green", outside it is cleared and, past the center by
more than `STOP_DIST`, `has_passed_intersection` is set. -/
def check_stop_signal (v : Vehicle) (signals : Signals) : Vehicle :=
  let center_x : ℚ := CANVAS_W / 2
  let center_y : ℚ := CANVAS_H / 2
  match v.direction with
  | Direction.north =>
    let distance_to_center := center_y - v.y
    if distance_to_center < STOP_DIST ∧ distance_to_center > -STOP_DIST then
      { v with stopped := decide (signals.north ≠ Color.green) }
    else
      { v with stopped := false
               has_passed_intersection :=
                 if v.y > center_y + STOP_DIST then true
                 else v.has_passed_intersection }
  | Direction.south =>
    let distance_to_center := v.y - center_y
    if distance_to_center < STOP_DIST ∧ distance_to_center > -STOP_DIST then
      { v with stopped := decide (signals.south ≠ Color.green) }
    else
      { v with stopped := false
               has_passed_intersection :=
                 if v.y < center_y - STOP_DIST then true
                 else v.has_passed_intersection }
  | Direction.west =>
    let distance_to_center := center_x - v.x
    if distance_to_center < STOP_DIST ∧ distance_to_center > -STOP_DIST then
      { v with stopped := decide (signals.west ≠ Color.green) }
    else
      { v with stopped := false
               has_passed_intersection :=
                 if v.x > center_x + STOP_DIST then true
                 else v.has_passed_intersection }
  | Direction.east =>
    let distance_to_center := v.x - center_x
    if distance_to_center < STOP_DIST ∧ distance_to_center > -STOP_DIST then
      { v with stopped := decide (signals.east ≠ Color.green) }
    else
      { v with stopped := false
               has_passed_intersection :=
                 if v.x < center_x - STOP_DIST then true
                 else v.has_passed_intersection }

/-- The signed distance to the intersection center along the direction of
travel, as computed branch-by-branch in `check_stop_signal`
(`distance_to_center`). -/
def signedDist (v : Vehicle) : ℚ :=
  match v.direction with
  | Direction.north => CANVAS_H / 2 - v.y
  | Direction.south => v.y - CANVAS_H / 2
  | Direction.west => CANVAS_W / 2 - v.x
  | Direction.east => v.x - CANVAS_W / 2

/-- Strict membership in the stop zone, as tested by `check_stop_signal`. -/
def inStopZone (v : Vehicle) : Bool :=
  decide (signedDist v < STOP_DIST) && decide (signedDist v > -STOP_DIST)

/-- The past-center-by-radius condition under which `check_stop_signal` sets
`has_passed_intersection`. -/
def pastCenter (v : Vehicle) : Bool :=
  decide (signedDist v < -STOP_DIST)

/-- Whether a vehicle-type string is an emergency class
(`vehicle_type in ("ambulance", "firetruck")`). -/
def isEmergencyType (t : String) : Bool :=
  decide (t = "ambulance") || decide (t = "firetruck")

/-- The mutable state of `VehicleManager` together with the two statistics
counters it writes (`ui.amb_served_var` / `ui.fire_served_var`). -/
structure ManagerState where
  vehicles : List Vehicle
  vehicle_count : ℕ
  amb_served : ℕ
  fire_served : ℕ
  deriving DecidableEq

/-- Remove the first vehicle with the given id from the list (Python's
`list.remove`, where vehicle objects compare by identity and ids are
unique). -/
def removeById (i : ℕ) : List Vehicle → List Vehicle
  | [] => []
  | w :: ws => if w.id = i then ws else w :: removeById i ws

/-- `VehicleManager.remove_vehicle(vehicle)`: if the vehicle is present,
attribute a served count to its class when it is an emergency vehicle that
had passed the intersection, then drop it from the list (sound and canvas
teardown are external). -/
def remove_vehicle (v : Vehicle) (s : ManagerState) : ManagerState :=
  if s.vehicles.any fun w => w.id == v.id then
    if isEmergencyType v.vehicle_type && v.has_passed_intersection then
      if v.vehicle_type = "ambulance" then
        { s with amb_served := s.amb_served + 1,
                 vehicles := removeById v.id s.vehicles }
      else
        { s with fire_served := s.fire_served + 1,
                 vehicles := removeById v.id s.vehicles }
    else { s with vehicles := removeById v.id s.vehicles }
  else s

/-- `VehicleManager.clear_all`: call `remove_vehicle` on a snapshot of the
vehicle list, then clear the list. -/
def clear_all (s : ManagerState) : ManagerState :=
  let s1 := s.vehicles.foldl (fun st v => remove_vehicle v st) s
  { s1 with vehicles := [] }

/-- `VehicleManager.can_spawn_at(direction)`: no same-direction vehicle may
lie at Euclidean distance below `MIN_SPACING` from the direction's spawn
point.  The source compares `sqrt(dx*dx + dy*dy) < MIN_SPACING`; both sides
are nonnegative, so it is embedded as the equivalent squared comparison. -/
def can_spawn_at (s : ManagerState) (direction : Direction) : Bool :=
  let sx := (spawn_points direction).1
  let sy := (spawn_points direction).2
  s.vehicles.all fun v =>
    !(v.direction == direction &&
      decide ((v.x - sx) ^ 2 + (v.y - sy) ^ 2 < MIN_SPACING ^ 2))

/-- `VehicleManager.spawn_vehicle(direction, vehicle_type)` with an explicit
direction (the direction-is-`None` random choice is out of scope of the
embedding) and the fresh vehicle id made explicit: fail without mutation if
spacing check fails, otherwise append the newly constructed vehicle and bump
the counter. -/
def spawn_vehicle (s : ManagerState) (direction : Direction)
    (vehicle_type : String) (newId : ℕ) : Bool × ManagerState :=
  if !(can_spawn_at s direction) then (false, s)
  else
    let v := mkVehicle newId direction vehicle_type (velocities direction)
      (spawn_points direction)
    (true, { s with vehicles := s.vehicles ++ [v],
                    vehicle_count := s.vehicle_count + 1 })

/-- Modelled from the spec's spacing words: some existing vehicle heading the
same direction lies at Euclidean distance strictly less than `MIN_SPACING`
from that direction's spawn point (squared form of the comparison). -/
def spawnBlocked (s : ManagerState) (direction : Direction) : Bool :=
  s.vehicles.any fun v =>
    v.direction == direction &&
      decide ((v.x - (spawn_points direction).1) ^ 2 +
        (v.y - (spawn_points direction).2) ^ 2 < MIN_SPACING ^ 2)

/-- `VehicleManager.should_despawn(vehicle)`: the direction's boundary
predicate applied to both coordinates. -/
def should_despawn (v : Vehicle) : Bool :=
  despawn_bound v.direction v.x || despawn_bound v.direction v.y

/-- The coordinate perpendicular to a vehicle's travel axis. -/
def perpCoord (v : Vehicle) : ℚ :=
  match v.direction with
  | Direction.north => v.x
  | Direction.south => v.x
  | Direction.west => v.y
  | Direction.east => v.y

/-- The coordinate along a vehicle's travel axis. -/
def travelCoord (v : Vehicle) : ℚ :=
  match v.direction with
  | Direction.north => v.y
  | Direction.south => v.y
  | Direction.west => v.x
  | Direction.east => v.x

/-- The per-tick mutations a live vehicle undergoes in
`VehicleManager.update_vehicles`: stop-line checks and moves (the siren-blink
update touches no modelled field). -/
inductive Evolves : Vehicle → Vehicle → Prop
  | refl (v : Vehicle) : Evolves v v
  | move (v w : Vehicle) (m : ℚ) : Evolves v w → Evolves v (w.move m)
  | check (v w : Vehicle) (sig : Signals) :
      Evolves v w → Evolves v (check_stop_signal w sig)

/-- A queued north ambulance request used as a concrete example. -/
def exReqNorthAmb : EmergencyRequest :=
  ⟨"north", "ambulance", 0⟩

/-- A concrete controller state: override active for north with time left on
the hold timer, and a second north ambulance request still queued. -/
def c6_state : ControllerState :=
  { signals := nsGreenSignals
    emergency_queue := [exReqNorthAmb]
    cycle_state := "ns_green"
    state_timer := GREEN_TIME
    override_active := true
    override_direction := some "north"
    override_timer := 2
    running := true }

/-- A concrete controller state: override active with exactly one tick left
on the hold timer and a south ambulance request still queued. -/
def c5_state : ControllerState :=
  { signals := nsGreenSignals
    emergency_queue := [⟨"south", "ambulance", 0⟩]
    cycle_state := "ns_green"
    state_timer := 3
    override_active := true
    override_direction := some "north"
    override_timer := TICK_DT
    running := true }

/-- A concrete northbound ambulance strictly inside the stop zone
(y = 284, signed distance 66). -/
def c1_veh : Vehicle :=
  { id := 0
    direction := Direction.north
    vehicle_type := "ambulance"
    x := 440
    y := 284
    vx := 0
    vy := 1
    speed := AMB_BASE_SPEED
    stopped := false
    has_passed_intersection := false }

/-- A concrete northbound car exactly at the stop-zone boundary
(y = 280, signed distance exactly `STOP_DIST`). -/
def c4_veh : Vehicle :=
  { id := 1
    direction := Direction.north
    vehicle_type := "car"
    x := 440
    y := 280
    vx := 0
    vy := 1
    speed := CAR_BASE_SPEED
    stopped := false
    has_passed_intersection := false }

/-- A concrete northbound ambulance that has already passed the
intersection. -/
def c7_veh : Vehicle :=
  { id := 2
    direction := Direction.north
    vehicle_type := "ambulance"
    x := 440
    y := 600
    vx := 0
    vy := 1
    speed := AMB_BASE_SPEED
    stopped := false
    has_passed_intersection := true }

/-- A concrete manager state holding just `c7_veh`, with zeroed statistics. -/
def c7_state : ManagerState :=
  { vehicles := [c7_veh]
    vehicle_count := 1
    amb_served := 0
    fire_served := 0 }

/-! ## Signal projection lemmas -/

theorem set_ns_green_signals (s : ControllerState) :
    (set_ns_green s).signals = nsGreenSignals := rfl

theorem set_ns_yellow_signals (s : ControllerState) :
    (set_ns_yellow s).signals = nsYellowSignals := rfl

theorem set_ew_green_signals (s : ControllerState) :
    (set_ew_green s).signals = ewGreenSignals := rfl

theorem set_ew_yellow_signals (s : ControllerState) :
    (set_ew_yellow s).signals = ewYellowSignals := rfl

theorem end_override_signals (s : ControllerState) :
    (end_override s).signals = nsGreenSignals := rfl

theorem serve_emergency_signals (e : EmergencyRequest) (s : ControllerState) :
    (serve_emergency e s).signals =
      if e.direction = "north" ∨ e.direction = "south" then nsGreenSignals
      else ewGreenSignals := rfl

theorem greensOK_serve (e : EmergencyRequest) (s : ControllerState) :
    greensOK (serve_emergency e s).signals := by
  rw [serve_emergency_signals]
  split
  · decide
  · decide

theorem greensOK_tickOverride (s1 : ControllerState)
    (h : greensOK s1.signals) : greensOK (tickOverride s1).signals := by
  unfold tickOverride
  split
  · rw [end_override_signals]; decide
  · exact h

theorem greensOK_tickCycle (s1 : ControllerState) (h : greensOK s1.signals) :
    greensOK (tickCycle s1).signals := by
  unfold tickCycle
  split
  · split
    · rw [set_ns_yellow_signals]; decide
    · split
      · rw [set_ew_green_signals]; decide
      · split
        · rw [set_ew_yellow_signals]; decide
        · split
          · rw [set_ns_green_signals]; decide
          · exact h
  · exact h

theorem greensOK_tick (s : ControllerState) (h : greensOK s.signals) :
    greensOK (tickC s).signals := by
  unfold tickC
  split
  · exact h
  · split
    · exact greensOK_tickOverride _ h
    · split
      · exact greensOK_serve _ _
      · exact greensOK_tickCycle _ h

/-- Claim C2: in every controller state reachable from the initial all-red
state by start, tick, enqueue, serve-emergency, end-override and reset, the
set of green directions is exactly one of ∅, {north, south} or
{east, west} — the two axes are never simultaneously green. -/
theorem c2_green_mutual_exclusion (s : ControllerState) (h : Reachable s) :
    greensOK s.signals := by
  induction h with
  | init => decide
  | start s hs ih =>
    unfold startC
    split
    · exact ih
    · rw [set_ns_green_signals]; decide
  | tick s hs ih => exact greensOK_tick s ih
  | enqueue d t now s hs ih => exact ih
  | serve e s hs ih => exact greensOK_serve e s
  | endOv s hs ih => rw [end_override_signals]; decide
  | reset s hs ih =>
    show greensOK nsGreenSignals
    decide

/-- Witness for C2 at the initial state. -/
theorem c2_green_mutual_exclusion_witness : greensOK initC.signals :=
  c2_green_mutual_exclusion initC Reachable.init

/-- Counterexample to claim C9 as stated: an enqueue with a direction that is
not one of the four compass points and a class that is not an emergency class
is not rejected — the malformed request lands in the emergency queue. -/
theorem c9_counterexample :
    (add_emergency "northeast" "bicycle" 0 initC).emergency_queue =
      [⟨"northeast", "bicycle", 0⟩] ∧
    initC.emergency_queue = [] := by
  exact ⟨rfl, rfl⟩

/-- Claim C9 amended: `add_emergency` performs no input validation — every
call, whatever its direction and class strings, appends its request (with the
given timestamp) to the emergency queue, and no other controller field
changes. -/
theorem c9_enqueue_appends_unvalidated (s : ControllerState)
    (d t : String) (now : ℚ) :
    (add_emergency d t now s).emergency_queue =
      s.emergency_queue ++ [⟨d, t, now⟩] ∧
    (add_emergency d t now s).signals = s.signals ∧
    (add_emergency d t now s).cycle_state = s.cycle_state ∧
    (add_emergency d t now s).state_timer = s.state_timer ∧
    (add_emergency d t now s).override_active = s.override_active ∧
    (add_emergency d t now s).override_direction = s.override_direction ∧
    (add_emergency d t now s).override_timer = s.override_timer ∧
    (add_emergency d t now s).running = s.running :=
  ⟨rfl, rfl, rfl, rfl, rfl, rfl, rfl, rfl⟩

/-- Claim C6: `end_override` never removes anything from the emergency
queue — the direction filter is guarded by a read of `override_direction`
that the function has just set to `None`, so the queued north ambulance
request survives an ending north override, contradicting the claim (and the
source's own comment above the filter). -/
theorem c6_end_override_keeps_queue :
    c6_state.override_direction = some "north" ∧
    (end_override c6_state).emergency_queue = [exReqNorthAmb] ∧
    ∀ s : ControllerState, (end_override s).emergency_queue =
      s.emergency_queue := by
  refine ⟨rfl, rfl, fun s => rfl⟩

/-! ## Emergency-selection lemmas -/

theorem keyLE_refl (a : EmergencyRequest) : keyLE a a = true := by
  simp [keyLE]

theorem keyLE_total (a b : EmergencyRequest) :
    keyLE a b = true ∨ keyLE b a = true := by
  simp only [keyLE, Bool.or_eq_true, Bool.and_eq_true, decide_eq_true_eq]
  rcases lt_trichotomy (emergency_rank a.vtype) (emergency_rank b.vtype)
    with h | h | h
  · exact Or.inl (Or.inl h)
  · rcases le_total a.time b.time with ht | ht
    · exact Or.inl (Or.inr ⟨h, ht⟩)
    · exact Or.inr (Or.inr ⟨h.symm, ht⟩)
  · exact Or.inr (Or.inl h)

theorem keyLE_trans (a b c : EmergencyRequest) (h1 : keyLE a b = true)
    (h2 : keyLE b c = true) : keyLE a c = true := by
  simp only [keyLE, Bool.or_eq_true, Bool.and_eq_true, decide_eq_true_eq]
    at h1 h2 ⊢
  rcases h1 with h1 | ⟨h1, h1t⟩ <;> rcases h2 with h2 | ⟨h2, h2t⟩
  · exact Or.inl (h1.trans h2)
  · exact Or.inl (h2 ▸ h1)
  · exact Or.inl (h1 ▸ h2)
  · exact Or.inr ⟨h1.trans h2, h1t.trans h2t⟩

theorem insertReq_ne_nil (x : EmergencyRequest) (l : List EmergencyRequest) :
    insertReq x l ≠ [] := by
  cases l with
  | nil => simp [insertReq]
  | cons y ys =>
    simp only [insertReq]
    split <;> simp

theorem get_next_eq_head (q : List EmergencyRequest) :
    get_next_emergency q = (sortReqs q).head? := by
  cases h : sortReqs q with
  | nil => simp [get_next_emergency, h]
  | cons a l => simp [get_next_emergency, h]

theorem insertReq_head (x : EmergencyRequest) (l : List EmergencyRequest) :
    (insertReq x l).head? =
      some (match l.head? with
            | none => x
            | some y => if keyLE x y then x else y) := by
  cases l with
  | nil => rfl
  | cons y ys =>
    by_cases h : keyLE x y = true
    · simp [insertReq, h]
    · simp [insertReq, h]

theorem specNext_isSome (a : EmergencyRequest) (l : List EmergencyRequest) :
    ∃ e, specNextEmergency (a :: l) = some e := by
  cases h : specNextEmergency l with
  | none => exact ⟨a, by simp [specNextEmergency, h]⟩
  | some m =>
    exact ⟨if keyLE a m then a else m, by simp [specNextEmergency, h]⟩

theorem get_next_isSome (a : EmergencyRequest) (l : List EmergencyRequest) :
    ∃ e, get_next_emergency (a :: l) = some e := by
  rw [get_next_eq_head]
  have h1 : sortReqs (a :: l) = insertReq a (sortReqs l) := rfl
  rw [h1]
  cases hins : insertReq a (sortReqs l) with
  | nil => exact absurd hins (insertReq_ne_nil _ _)
  | cons b bs => exact ⟨b, rfl⟩

theorem specNext_mem (q : List EmergencyRequest) :
    ∀ e : EmergencyRequest, specNextEmergency q = some e → e ∈ q := by
  induction q with
  | nil => intro e h; cases h
  | cons x xs ih =>
    intro e h
    cases hx : specNextEmergency xs with
    | none =>
      simp only [specNextEmergency, hx, Option.some.injEq] at h
      subst h
      exact List.mem_cons_self x xs
    | some m =>
      simp only [specNextEmergency, hx, Option.some.injEq] at h
      subst h
      by_cases hk : keyLE x m = true
      · simp only [hk, if_true]
        exact List.mem_cons_self x xs
      · simp only [hk, if_false]
        exact List.mem_cons_of_mem x (ih m hx)

theorem specNext_min (q : List EmergencyRequest) :
    ∀ e : EmergencyRequest, specNextEmergency q = some e →
      ∀ f ∈ q, keyLE e f = true := by
  induction q with
  | nil => intro e h; cases h
  | cons x xs ih =>
    intro e h f hf
    cases hx : specNextEmergency xs with
    | none =>
      have hnil : xs = [] := by
        cases xs with
        | nil => rfl
        | cons a l =>
          obtain ⟨e', he'⟩ := specNext_isSome a l
          rw [hx] at he'
          cases he'
      subst hnil
      simp only [specNextEmergency, Option.some.injEq] at h
      subst h
      rcases List.mem_singleton.mp hf with rfl
      exact keyLE_refl _
    | some m =>
      simp only [specNextEmergency, hx, Option.some.injEq] at h
      subst h
      rcases List.mem_cons.mp hf with rfl | hfx
      · by_cases hk : keyLE f m = true
        · simp only [hk, if_true]
          exact keyLE_refl f
        · simp only [hk, if_false]
          rcases keyLE_total f m with ht | ht
          · exact absurd ht hk
          · exact ht
      · by_cases hk : keyLE x m = true
        · simp only [hk, if_true]
          exact keyLE_trans x m f hk (ih m hx f hfx)
        · simp only [hk, if_false]
          exact ih m hx f hfx

/-- Claim C3: `get_next_emergency` computes exactly the spec's selection
policy — the queued request with the lowest `(priority-rank, arrival-time)`
lexicographic key, with ambulances ranking before firetrucks and full-key
ties resolved toward the earliest-queued request.  Both sides are pure
functions of the queue, so the result is deterministic and unchanged under
repeated queries on an unchanged queue; `specNext_mem` and `specNext_min`
show that the selected request belongs to the queue and has a minimal key. -/
theorem c3_next_emergency_lex_min (q : List EmergencyRequest) :
    get_next_emergency q = specNextEmergency q := by
  induction q with
  | nil => rfl
  | cons x xs ih =>
    have h1 : sortReqs (x :: xs) = insertReq x (sortReqs xs) := rfl
    rw [get_next_eq_head, h1, insertReq_head, ← get_next_eq_head, ih]
    cases h : specNextEmergency xs with
    | none => simp [specNextEmergency, h]
    | some m => simp [specNextEmergency, h]

/-! ## Controller tick characterisations -/

theorem tickC_lapse (s : ControllerState) (hrun : s.running = true)
    (hov : s.override_active = true)
    (ht : s.override_timer - TICK_DT ≤ 0) :
    tickC s = end_override { s with
      override_timer := s.override_timer - TICK_DT } := by
  unfold tickC
  rw [if_neg (by simp [hrun]), if_pos hov]
  unfold tickOverride
  rw [if_pos ht]

theorem tickC_serves (s : ControllerState) (hrun : s.running = true)
    (hov : s.override_active = false) (e : EmergencyRequest)
    (he : get_next_emergency s.emergency_queue = some e) :
    tickC s = serve_emergency e s := by
  unfold tickC
  rw [if_neg (by simp [hrun]), if_neg (by simp [hov]), he]

theorem tickC_idle (s : ControllerState) (hrun : s.running = true)
    (hov : s.override_active = false)
    (he : get_next_emergency s.emergency_queue = none)
    (htimer : ¬ s.state_timer - TICK_DT ≤ 0) :
    tickC s = { s with state_timer := s.state_timer - TICK_DT } := by
  unfold tickC
  rw [if_neg (by simp [hrun]), if_neg (by simp [hov]), he]
  unfold tickCycle
  rw [if_neg htimer]

/-- Counterexample to claim C5 as stated: in a reachable situation where the
hold timer lapses with a further (south ambulance) request still queued, the
controller does not chain into the next override — it lands in the
normal-cycle state `ns_green` with the override inactive and the request
still waiting. -/
theorem c5_counterexample :
    c5_state.emergency_queue ≠ [] ∧
    (tickC c5_state).override_active = false ∧
    (tickC c5_state).cycle_state = "ns_green" ∧
    (tickC c5_state).signals = nsGreenSignals ∧
    (tickC c5_state).emergency_queue = c5_state.emergency_queue := by
  have h1 : tickC c5_state = end_override { c5_state with
      override_timer := c5_state.override_timer - TICK_DT } := by
    apply tickC_lapse c5_state rfl rfl
    show TICK_DT - TICK_DT ≤ 0
    norm_num
  refine ⟨by simp [c5_state], ?_, ?_, ?_, ?_⟩ <;> rw [h1] <;> rfl

/-- Claim C5 amended: when the override hold timer lapses on a controller
tick, the override always ends into the normal cycle at `ns_green` with a
fresh full green-duration timer and an unchanged emergency queue, whether or
not requests remain queued; a remaining queued request is served only on the
following controller tick (on which the override becomes active again exactly
when the queue is non-empty). -/
theorem c5_lapse_resumes_ns_green (s : ControllerState)
    (hrun : s.running = true) (hov : s.override_active = true)
    (ht : s.override_timer ≤ TICK_DT) :
    (tickC s).override_active = false ∧
    (tickC s).cycle_state = "ns_green" ∧
    (tickC s).state_timer = GREEN_TIME ∧
    (tickC s).signals = nsGreenSignals ∧
    (tickC s).emergency_queue = s.emergency_queue ∧
    (tickC (tickC s)).override_active = !s.emergency_queue.isEmpty := by
  have h1 : tickC s = end_override { s with
      override_timer := s.override_timer - TICK_DT } :=
    tickC_lapse s hrun hov (by linarith)
  have hq : (tickC s).emergency_queue = s.emergency_queue := by rw [h1]; rfl
  have hrun1 : (tickC s).running = true := by rw [h1]; exact hrun
  have hov1 : (tickC s).override_active = false := by rw [h1]; rfl
  refine ⟨hov1, by rw [h1]; rfl, by rw [h1]; rfl, by rw [h1]; rfl, hq, ?_⟩
  cases hqe : s.emergency_queue with
  | nil =>
    have hnone : get_next_emergency (tickC s).emergency_queue = none := by
      rw [hq, hqe]
      rfl
    have htm : ¬ (tickC s).state_timer - TICK_DT ≤ 0 := by
      rw [h1]
      show ¬ GREEN_TIME - TICK_DT ≤ 0
      norm_num [GREEN_TIME, TICK_DT, CHECK_INTERVAL]
    rw [tickC_idle (tickC s) hrun1 hov1 hnone htm]
    simp [hov1]
  | cons a l =>
    obtain ⟨e, he⟩ := get_next_isSome a l
    have he2 : get_next_emergency (tickC s).emergency_queue = some e := by
      rw [hq, hqe]
      exact he
    rw [tickC_serves (tickC s) hrun1 hov1 e he2]
    rfl

/-- Witness for the amended C5 theorem at the concrete state `c5_state`. -/
theorem c5_lapse_resumes_ns_green_witness :
    (tickC c5_state).override_active = false ∧
    (tickC c5_state).cycle_state = "ns_green" ∧
    (tickC c5_state).state_timer = GREEN_TIME ∧
    (tickC c5_state).signals = nsGreenSignals ∧
    (tickC c5_state).emergency_queue = c5_state.emergency_queue ∧
    (tickC (tickC c5_state)).override_active =
      !c5_state.emergency_queue.isEmpty :=
  c5_lapse_resumes_ns_green c5_state rfl rfl (le_refl TICK_DT)

/-! ## Stop-line lemmas -/

theorem check_stop_spec (v : Vehicle) (sig : Signals) :
    (check_stop_signal v sig).stopped =
      (inStopZone v && decide (signalFor sig v.direction ≠ Color.green)) ∧
    (check_stop_signal v sig).has_passed_intersection =
      (v.has_passed_intersection || pastCenter v) := by
  rcases v with ⟨i, d, vt, x, y, vx, vy, sp, st, hp⟩
  cases d
  case north =>
    simp only [check_stop_signal, inStopZone, pastCenter, signalFor,
      signedDist]
    split
    · rename_i hc
      obtain ⟨h1, h2⟩ := hc
      constructor
      · simp [h1, h2]
      · simp [lt_asymm h2]
    · rename_i hc
      constructor
      · have hz : (decide (CANVAS_H / 2 - y < STOP_DIST) &&
            decide (CANVAS_H / 2 - y > -STOP_DIST)) = false := by
          rcases not_and_or.mp hc with h | h <;> simp [h]
        simp only [hz, Bool.false_and]
      · by_cases hpc : y > CANVAS_H / 2 + STOP_DIST
        · simp [hpc, show CANVAS_H / 2 - y < -STOP_DIST by linarith]
        · simp [hpc, show ¬ CANVAS_H / 2 - y < -STOP_DIST by
            intro hlt; exact hpc (by linarith)]
  case south =>
    simp only [check_stop_signal, inStopZone, pastCenter, signalFor,
      signedDist]
    split
    · rename_i hc
      obtain ⟨h1, h2⟩ := hc
      constructor
      · simp [h1, h2]
      · simp [lt_asymm h2]
    · rename_i hc
      constructor
      · have hz : (decide (y - CANVAS_H / 2 < STOP_DIST) &&
            decide (y - CANVAS_H / 2 > -STOP_DIST)) = false := by
          rcases not_and_or.mp hc with h | h <;> simp [h]
        simp only [hz, Bool.false_and]
      · by_cases hpc : y < CANVAS_H / 2 - STOP_DIST
        · simp [hpc, show y - CANVAS_H / 2 < -STOP_DIST by linarith]
        · simp [hpc, show ¬ y - CANVAS_H / 2 < -STOP_DIST by
            intro hlt; exact hpc (by linarith)]
  case west =>
    simp only [check_stop_signal, inStopZone, pastCenter, signalFor,
      signedDist]
    split
    · rename_i hc
      obtain ⟨h1, h2⟩ := hc
      constructor
      · simp [h1, h2]
      · simp [lt_asymm h2]
    · rename_i hc
      constructor
      · have hz : (decide (CANVAS_W / 2 - x < STOP_DIST) &&
            decide (CANVAS_W / 2 - x > -STOP_DIST)) = false := by
          rcases not_and_or.mp hc with h | h <;> simp [h]
        simp only [hz, Bool.false_and]
      · by_cases hpc : x > CANVAS_W / 2 + STOP_DIST
        · simp [hpc, show CANVAS_W / 2 - x < -STOP_DIST by linarith]
        · simp [hpc, show ¬ CANVAS_W / 2 - x < -STOP_DIST by
            intro hlt; exact hpc (by linarith)]
  case east =>
    simp only [check_stop_signal, inStopZone, pastCenter, signalFor,
      signedDist]
    split
    · rename_i hc
      obtain ⟨h1, h2⟩ := hc
      constructor
      · simp [h1, h2]
      · simp [lt_asymm h2]
    · rename_i hc
      constructor
      · have hz : (decide (x - CANVAS_W / 2 < STOP_DIST) &&
            decide (x - CANVAS_W / 2 > -STOP_DIST)) = false := by
          rcases not_and_or.mp hc with h | h <;> simp [h]
        simp only [hz, Bool.false_and]
      · by_cases hpc : x < CANVAS_W / 2 - STOP_DIST
        · simp [hpc, show x - CANVAS_W / 2 < -STOP_DIST by linarith]
        · simp [hpc, show ¬ x - CANVAS_W / 2 < -STOP_DIST by
            intro hlt; exact hpc (by linarith)]

/-- Counterexample to claim C1 as stated: a northbound ambulance strictly
inside the stop zone facing an all-red signal map has its stopped flag set to
true by `check_stop_signal` — `check_stop_signal` contains no
emergency-class exemption. -/
theorem c1_counterexample :
    c1_veh.vehicle_type = "ambulance" ∧
    allRedSignals.north = Color.red ∧
    (check_stop_signal c1_veh allRedSignals).stopped = true := by
  refine ⟨rfl, rfl, ?_⟩
  norm_num [check_stop_signal, c1_veh, allRedSignals, CANVAS_H, CANVAS_W,
    STOP_DIST]
  decide

/-- Claim C1 amended: emergency-class vehicles are not exempt from the
signal — `check_stop_signal` applies the same rule to every vehicle class:
the stopped flag becomes true exactly when the vehicle is strictly inside the
stop zone and its direction's signal is not green, while
`has_passed_intersection` is still acquired by the same past-center-by-radius
rule. -/
theorem c1_emergency_same_rule (v : Vehicle) (sig : Signals)
    (_hem : isEmergencyType v.vehicle_type = true) :
    (check_stop_signal v sig).stopped =
      (inStopZone v && decide (signalFor sig v.direction ≠ Color.green)) ∧
    (check_stop_signal v sig).has_passed_intersection =
      (v.has_passed_intersection || pastCenter v) :=
  check_stop_spec v sig

/-- Witness for the amended C1 theorem at a concrete ambulance. -/
theorem c1_emergency_same_rule_witness :
    isEmergencyType c1_veh.vehicle_type = true ∧
    ((check_stop_signal c1_veh allRedSignals).stopped =
      (inStopZone c1_veh &&
        decide (signalFor allRedSignals c1_veh.direction ≠ Color.green)) ∧
    (check_stop_signal c1_veh allRedSignals).has_passed_intersection =
      (c1_veh.has_passed_intersection || pastCenter c1_veh)) :=
  ⟨by decide, c1_emergency_same_rule c1_veh allRedSignals (by decide)⟩

/-- Counterexample to claim C4 as stated: a non-emergency car whose signed
distance to the center is exactly `STOP_DIST` is not stopped under an
all-red signal map — the boundary is treated as outside the stop zone. -/
theorem c4_counterexample :
    c4_veh.vehicle_type = "car" ∧
    signedDist c4_veh = STOP_DIST ∧
    allRedSignals.north = Color.red ∧
    (check_stop_signal c4_veh allRedSignals).stopped = false := by
  refine ⟨rfl, ?_, rfl, ?_⟩
  · norm_num [signedDist, c4_veh, CANVAS_H, STOP_DIST]
  · norm_num [check_stop_signal, c4_veh, allRedSignals, CANVAS_H, CANVAS_W,
      STOP_DIST]

/-- Claim C4 amended: exactly-at-boundary values are treated as outside the
stop zone — a vehicle whose signed distance to the intersection center
equals `STOP_DIST` is never marked stopped by the stop-line check, whatever
the signal state (the source's comparisons are strict). -/
theorem c4_boundary_not_stopped (v : Vehicle) (sig : Signals)
    (hb : signedDist v = STOP_DIST) :
    (check_stop_signal v sig).stopped = false := by
  rw [(check_stop_spec v sig).1]
  have hz : inStopZone v = false := by
    unfold inStopZone
    rw [hb]
    simp
  rw [hz]
  simp

/-- Witness for the amended C4 theorem at the concrete boundary car. -/
theorem c4_boundary_not_stopped_witness :
    signedDist c4_veh = STOP_DIST ∧
    (check_stop_signal c4_veh allRedSignals).stopped = false :=
  ⟨by norm_num [signedDist, c4_veh, CANVAS_H, STOP_DIST],
   c4_boundary_not_stopped c4_veh allRedSignals
     (by norm_num [signedDist, c4_veh, CANVAS_H, STOP_DIST])⟩

/-! ## Vehicle kinematics lemmas -/

theorem check_preserves_kinematics (v : Vehicle) (sig : Signals) :
    (check_stop_signal v sig).direction = v.direction ∧
    (check_stop_signal v sig).x = v.x ∧
    (check_stop_signal v sig).y = v.y ∧
    (check_stop_signal v sig).vx = v.vx ∧
    (check_stop_signal v sig).vy = v.vy := by
  rcases v with ⟨i, d, vt, x, y, vx, vy, sp, st, hp⟩
  cases d <;> simp only [check_stop_signal] <;> split <;>
    exact ⟨rfl, rfl, rfl, rfl, rfl⟩

theorem move_fields (v : Vehicle) (m : ℚ) :
    (v.move m).direction = v.direction ∧
    (v.move m).vx = v.vx ∧
    (v.move m).vy = v.vy ∧
    (v.move m).x = v.x + v.vx * v.speed * m ∧
    (v.move m).y = v.y + v.vy * v.speed * m :=
  ⟨rfl, rfl, rfl, rfl, rfl⟩

theorem evolves_invariant (v0 w : Vehicle) (h : Evolves v0 w) :
    w.direction = v0.direction ∧ w.vx = v0.vx ∧ w.vy = v0.vy ∧
    (v0.vx = 0 → w.x = v0.x) ∧ (v0.vy = 0 → w.y = v0.y) := by
  induction h with
  | refl => exact ⟨rfl, rfl, rfl, fun _ => rfl, fun _ => rfl⟩
  | move w m _ ih =>
    obtain ⟨hd, hvx, hvy, hx, hy⟩ := ih
    obtain ⟨md, mvx, mvy, mx, my⟩ := move_fields w m
    refine ⟨md.trans hd, mvx.trans hvx, mvy.trans hvy, ?_, ?_⟩
    · intro h0
      rw [mx, hvx, h0, hx h0]
      ring
    · intro h0
      rw [my, hvy, h0, hy h0]
      ring
  | check w sig _ ih =>
    obtain ⟨hd, hvx, hvy, hx, hy⟩ := ih
    obtain ⟨cd, cx, cy, cvx, cvy⟩ := check_preserves_kinematics w sig
    exact ⟨cd.trans hd, cvx.trans hvx, cvy.trans hvy,
      fun h0 => (cx.trans (hx h0)), fun h0 => (cy.trans (hy h0))⟩

/-- Claim C10: for a vehicle spawned by the registry in direction `d`, the
coordinate perpendicular to its travel axis never changes across any
lifetime sequence of stop-line checks and moves (the direction's velocity has
a zero perpendicular component), and since the despawn check applies the
direction's single boundary predicate to both coordinates, only the
travel-axis coordinate can trigger it. -/
theorem c10_perp_coordinate_invariant (i : ℕ) (d : Direction) (t : String)
    (w : Vehicle)
    (h : Evolves (mkVehicle i d t (velocities d) (spawn_points d)) w) :
    perpCoord w =
      perpCoord (mkVehicle i d t (velocities d) (spawn_points d)) ∧
    should_despawn w = despawn_bound d (travelCoord w) := by
  obtain ⟨hd, hvx, hvy, hx, hy⟩ := evolves_invariant _ _ h
  cases d
  case north =>
    have hdn : w.direction = Direction.north := hd.trans rfl
    have hwx : w.x = CANVAS_W / 2 - 60 := hx rfl
    have hbx : despawn_bound Direction.north w.x = false := by
      rw [hwx]
      simp only [despawn_bound, decide_eq_false_iff_not]
      norm_num [CANVAS_W, CANVAS_H, VEHICLE_DESPAWN_DIST]
    constructor
    · simp only [perpCoord, hdn]
      exact hx rfl
    · simp only [should_despawn, travelCoord, hdn, hbx, Bool.false_or]
  case south =>
    have hdn : w.direction = Direction.south := hd.trans rfl
    have hwx : w.x = CANVAS_W / 2 + 60 := hx rfl
    have hbx : despawn_bound Direction.south w.x = false := by
      rw [hwx]
      simp only [despawn_bound, decide_eq_false_iff_not]
      norm_num [CANVAS_W, VEHICLE_DESPAWN_DIST]
    constructor
    · simp only [perpCoord, hdn]
      exact hx rfl
    · simp only [should_despawn, travelCoord, hdn, hbx, Bool.false_or]
  case west =>
    have hdn : w.direction = Direction.west := hd.trans rfl
    have hwy : w.y = CANVAS_H / 2 - 40 := hy rfl
    have hby : despawn_bound Direction.west w.y = false := by
      rw [hwy]
      simp only [despawn_bound, decide_eq_false_iff_not]
      norm_num [CANVAS_W, CANVAS_H, VEHICLE_DESPAWN_DIST]
    constructor
    · simp only [perpCoord, hdn]
      exact hy rfl
    · simp only [should_despawn, travelCoord, hdn, hby, Bool.or_false]
  case east =>
    have hdn : w.direction = Direction.east := hd.trans rfl
    have hwy : w.y = CANVAS_H / 2 + 40 := hy rfl
    have hby : despawn_bound Direction.east w.y = false := by
      rw [hwy]
      simp only [despawn_bound, decide_eq_false_iff_not]
      norm_num [CANVAS_H, VEHICLE_DESPAWN_DIST]
    constructor
    · simp only [perpCoord, hdn]
      exact hy rfl
    · simp only [should_despawn, travelCoord, hdn, hby, Bool.or_false]

/-- Witness for C10 at a freshly spawned northbound car. -/
theorem c10_perp_coordinate_invariant_witness :
    perpCoord (mkVehicle 0 Direction.north "car" (velocities Direction.north)
        (spawn_points Direction.north)) =
      perpCoord (mkVehicle 0 Direction.north "car"
        (velocities Direction.north) (spawn_points Direction.north)) ∧
    should_despawn (mkVehicle 0 Direction.north "car"
        (velocities Direction.north) (spawn_points Direction.north)) =
      despawn_bound Direction.north
        (travelCoord (mkVehicle 0 Direction.north "car"
          (velocities Direction.north) (spawn_points Direction.north))) :=
  c10_perp_coordinate_invariant 0 Direction.north "car" _ (Evolves.refl _)

/-! ## Vehicle-manager lemmas -/

theorem removeById_cons_self (v : Vehicle) (t : List Vehicle) :
    removeById v.id (v :: t) = t := by
  simp [removeById]

theorem remove_vehicle_fields (v : Vehicle) (s : ManagerState)
    (hmem : (s.vehicles.any fun w => w.id == v.id) = true) :
    (remove_vehicle v s).vehicles = removeById v.id s.vehicles ∧
    (remove_vehicle v s).vehicle_count = s.vehicle_count ∧
    (remove_vehicle v s).amb_served = s.amb_served +
      (if v.vehicle_type == "ambulance" && v.has_passed_intersection
       then 1 else 0) ∧
    (remove_vehicle v s).fire_served = s.fire_served +
      (if v.vehicle_type == "firetruck" && v.has_passed_intersection
       then 1 else 0) := by
  unfold remove_vehicle
  rw [if_pos hmem]
  by_cases h1 :
      (isEmergencyType v.vehicle_type && v.has_passed_intersection) = true
  · rw [if_pos h1]
    obtain ⟨hem, hpass⟩ :
        isEmergencyType v.vehicle_type = true ∧
          v.has_passed_intersection = true := by simpa using h1
    by_cases h2 : v.vehicle_type = "ambulance"
    · rw [if_pos h2]
      refine ⟨rfl, rfl, ?_, ?_⟩
      · simp [h2, hpass]
      · simp [h2]
    · rw [if_neg h2]
      have h3 : v.vehicle_type = "firetruck" := by
        simp only [isEmergencyType, Bool.or_eq_true, decide_eq_true_eq]
          at hem
        rcases hem with h | h
        · exact absurd h h2
        · exact h
      refine ⟨rfl, rfl, ?_, ?_⟩
      · simp [h3]
      · simp [h3, hpass]
  · rw [if_neg h1]
    have hamb : (v.vehicle_type == "ambulance" &&
        v.has_passed_intersection) = false := by
      cases hb : (v.vehicle_type == "ambulance" &&
          v.has_passed_intersection) with
      | false => rfl
      | true =>
        obtain ⟨ha, hpass⟩ :
            (v.vehicle_type == "ambulance") = true ∧
              v.has_passed_intersection = true := by simpa using hb
        refine absurd ?_ h1
        simp only [isEmergencyType, Bool.and_eq_true, Bool.or_eq_true,
          decide_eq_true_eq]
        exact ⟨Or.inl (by simpa using ha), hpass⟩
    have hfire : (v.vehicle_type == "firetruck" &&
        v.has_passed_intersection) = false := by
      cases hb : (v.vehicle_type == "firetruck" &&
          v.has_passed_intersection) with
      | false => rfl
      | true =>
        obtain ⟨ha, hpass⟩ :
            (v.vehicle_type == "firetruck") = true ∧
              v.has_passed_intersection = true := by simpa using hb
        refine absurd ?_ h1
        simp only [isEmergencyType, Bool.and_eq_true, Bool.or_eq_true,
          decide_eq_true_eq]
        exact ⟨Or.inr (by simpa using ha), hpass⟩
    refine ⟨rfl, rfl, ?_, ?_⟩
    · simp [hamb]
    · simp [hfire]

theorem clear_fold_spec (l : List Vehicle) :
    ∀ s : ManagerState, s.vehicles = l →
      (l.foldl (fun st v => remove_vehicle v st) s).vehicles = [] ∧
      (l.foldl (fun st v => remove_vehicle v st) s).vehicle_count =
        s.vehicle_count ∧
      (l.foldl (fun st v => remove_vehicle v st) s).amb_served =
        s.amb_served + l.countP
          (fun v => v.vehicle_type == "ambulance" &&
            v.has_passed_intersection) ∧
      (l.foldl (fun st v => remove_vehicle v st) s).fire_served =
        s.fire_served + l.countP
          (fun v => v.vehicle_type == "firetruck" &&
            v.has_passed_intersection) := by
  induction l with
  | nil =>
    intro s hs
    exact ⟨hs, rfl, by simp, by simp⟩
  | cons v t ih =>
    intro s hs
    have hmem : (s.vehicles.any fun w => w.id == v.id) = true := by
      rw [hs]
      simp [List.any_cons]
    obtain ⟨hveh, hcount, hamb, hfire⟩ := remove_vehicle_fields v s hmem
    have hveh2 : (remove_vehicle v s).vehicles = t := by
      rw [hveh, hs, removeById_cons_self]
    obtain ⟨ihveh, ihcount, ihamb, ihfire⟩ := ih (remove_vehicle v s) hveh2
    have hfold : (v :: t).foldl (fun st v => remove_vehicle v st) s =
        t.foldl (fun st v => remove_vehicle v st) (remove_vehicle v s) :=
      rfl
    rw [hfold]
    refine ⟨ihveh, ihcount.trans hcount, ?_, ?_⟩
    · rw [ihamb, hamb, List.countP_cons]
      omega
    · rw [ihfire, hfire, List.countP_cons]
      omega

/-- Counterexample to claim C7 as stated: clearing a manager that holds one
ambulance which had passed the intersection bumps the ambulances-served
counter from 0 to 1 — `clear_all` routes removals through `remove_vehicle`,
which attributes statistics. -/
theorem c7_counterexample :
    c7_state.amb_served = 0 ∧
    (clear_all c7_state).amb_served = 1 ∧
    (clear_all c7_state).vehicles = [] := by
  refine ⟨rfl, ?_, rfl⟩
  rfl

/-- Claim C7 amended: `clear_all` removes every vehicle from the active
collection (the live set becomes empty), leaves the cumulative vehicle
counter unchanged, and attributes completion statistics on the way out: the
ambulances-served (resp. firetrucks-served) counter grows by the number of
ambulances (resp. firetrucks) that had `has_passed_intersection` set. -/
theorem c7_clear_attributes_stats (s : ManagerState) :
    (clear_all s).vehicles = [] ∧
    (clear_all s).vehicle_count = s.vehicle_count ∧
    (clear_all s).amb_served = s.amb_served + s.vehicles.countP
      (fun v => v.vehicle_type == "ambulance" &&
        v.has_passed_intersection) ∧
    (clear_all s).fire_served = s.fire_served + s.vehicles.countP
      (fun v => v.vehicle_type == "firetruck" &&
        v.has_passed_intersection) := by
  obtain ⟨h1, h2, h3, h4⟩ := clear_fold_spec s.vehicles s rfl
  exact ⟨rfl, h2, h3, h4⟩

theorem all_not_eq_not_any (l : List Vehicle) (p : Vehicle → Bool) :
    (l.all fun a => !(p a)) = !(l.any p) := by
  induction l with
  | nil => rfl
  | cons a t ih => simp [List.all_cons, List.any_cons, ih]

theorem can_spawn_at_eq (s : ManagerState) (d : Direction) :
    can_spawn_at s d = !(spawnBlocked s d) := by
  unfold can_spawn_at spawnBlocked
  exact all_not_eq_not_any s.vehicles _

/-- Claim C8: a spawn request with a specified direction fails without any
mutation exactly when some same-direction vehicle lies at Euclidean distance
strictly below `MIN_SPACING` from that direction's spawn point; otherwise it
succeeds, appending a vehicle constructed at the direction's fixed spawn
coordinate with the direction's fixed unit velocity and bumping the
counter. -/
theorem c8_spawn_spacing (s : ManagerState) (d : Direction) (t : String)
    (i : ℕ) :
    spawn_vehicle s d t i =
      if spawnBlocked s d then (false, s)
      else (true, { s with
        vehicles := s.vehicles ++
          [mkVehicle i d t (velocities d) (spawn_points d)],
        vehicle_count := s.vehicle_count + 1 }) := by
  unfold spawn_vehicle
  rw [can_spawn_at_eq]
  cases h : spawnBlocked s d <;> simp [h]

end TrafficSim
